import Mathlib

/-
Shallow embedding of src/m6675.py (a MAX6675 thermocouple driver built on
gpiozero's SPIDevice).  The transport (SPI bus) is modelled as an explicit
state: an open/closed flag, the stream of bytes the bus will deliver, and a
counter of completed bus transactions.  Every driver operation is a function
from the transport state to the updated state paired with an
`Except DriverError` result, mirroring Python's exception semantics (the
state change performed before a raise survives the raise).

Temperatures are modelled in ℚ.  In the source they are Python floats, but
`temp_data * 0.25` is exact in binary floating point whenever
`temp_data < 2 ^ 53` (here `temp_data < 2 ^ 13`), so the rational model is
exact and faithful.
-/

/-- Errors the driver can signal.  `resourceClosed` models gpiozero's
closed-device error kind; `thermocoupleError` models the
`ThermocoupleError(IOError)` class defined at src/m6675.py lines 3-7. -/
inductive DriverError where
  | resourceClosed
  | thermocoupleError (msg : String)
  deriving DecidableEq, Repr

/-- The state of the SPI transport owned by a `Max6675` instance:
`clockMode` is the configured SPI clock polarity/phase mode, `isOpen`
whether the transport has been released, `stream` the bytes the bus will
deliver to subsequent reads, `transactions` the number of completed bus
transactions. -/
structure SpiState where
  clockMode : Nat
  isOpen : Bool
  stream : List Nat
  transactions : Nat
  deriving DecidableEq, Repr

/-- Modelled from the spec: gpiozero's `_check_open` (called at
src/m6675.py line 42, defined in the gpiozero library, not under src/)
"fails with a `ResourceClosedError` kind if the transport has been
released" and otherwise permits the operation. -/
def check_open (s : SpiState) : Except DriverError Unit :=
  if s.isOpen then Except.ok () else Except.error DriverError.resourceClosed

/-- Modelled from the spec: the transport's `read(n)` primitive (gpiozero,
not under src/) "performs one transport read of exactly `n` bytes",
one bus transaction, returning the next `n` bytes of the stream. -/
def spi_read (s : SpiState) (n : Nat) : SpiState × List Nat :=
  ({ s with stream := s.stream.drop n, transactions := s.transactions + 1 },
   s.stream.take n)

/-- Modelled from the spec: gpiozero's `_words_to_int` (called at
src/m6675.py line 44, defined in the gpiozero library, not under src/)
"combines the two bytes into a single 16-bit integer, most-significant
byte first". -/
def words_to_int (words : List Nat) : Nat :=
  words.foldl (fun acc w => (acc <<< 8) ||| w) 0

/-- src/m6675.py lines 34-44, `Max6675.raw_value`:
checks the device is open, reads 2 bytes from the SPI bus and combines
them into one integer. -/
def raw_value (s : SpiState) : SpiState × Except DriverError Nat :=
  match check_open s with
  | Except.error e => (s, Except.error e)
  | Except.ok () =>
      let r := spi_read s 2
      (r.1, Except.ok (words_to_int r.2))

/-- src/m6675.py lines 46-68, `Max6675.temperature`:
reads the raw value; if bit 2 (mask 4) is set raises `ThermocoupleError`,
otherwise shifts right by 3 and multiplies by 0.25 °C per LSB. -/
def temperature (s : SpiState) : SpiState × Except DriverError ℚ :=
  match raw_value s with
  | (s', Except.error e) => (s', Except.error e)
  | (s', Except.ok value) =>
      if value &&& 4 ≠ 0 then
        (s', Except.error
          (DriverError.thermocoupleError "Thermocouple is not connected"))
      else
        (s', Except.ok (((value >>> 3 : Nat) : ℚ) * 0.25))

/-- src/m6675.py lines 70-80, `Max6675.is_connected`:
reads the raw value and returns whether bit 2 (mask 4) is clear. -/
def is_connected (s : SpiState) : SpiState × Except DriverError Bool :=
  match raw_value s with
  | (s', Except.error e) => (s', Except.error e)
  | (s', Except.ok value) => (s', Except.ok ((value &&& 4) == 0))

/-- Modelled from the spec: `SPIDevice.__init__` (gpiozero, not under
src/) builds the transport from the user-supplied `spi_args`; `argsMode`
is whatever clock mode those arguments would leave the transport in, and
`stream` the bytes the physical bus will deliver. -/
def SPIDevice_init (argsMode : Nat) (stream : List Nat) : SpiState :=
  { clockMode := argsMode, isOpen := true, stream := stream,
    transactions := 0 }

/-- src/m6675.py lines 22-32, `Max6675.__init__`: calls the `SPIDevice`
constructor with the user arguments, then sets `self._spi.clock_mode = 0`. -/
def Max6675_init (argsMode : Nat) (stream : List Nat) : SpiState :=
  let s := SPIDevice_init argsMode stream
  { s with clockMode := 0 }

/-- Helper: on an open state, `raw_value` consumes two bytes, counts one
transaction and returns the combined word. -/
theorem raw_value_open (s : SpiState) (h : s.isOpen = true) :
    raw_value s =
      ({ s with stream := s.stream.drop 2,
                transactions := s.transactions + 1 },
       Except.ok (words_to_int (s.stream.take 2))) := by
  simp [raw_value, check_open, spi_read, h]

/-- Helper: on a closed state, `raw_value` raises the resource-closed error
and leaves the state untouched. -/
theorem raw_value_closed (s : SpiState) (h : s.isOpen = false) :
    raw_value s = (s, Except.error DriverError.resourceClosed) := by
  simp [raw_value, check_open, h]

/-- Helper: combining two bytes MSB-first. -/
theorem words_to_int_pair (b0 b1 : Nat) :
    words_to_int [b0, b1] = (b0 <<< 8) ||| b1 := by
  simp [words_to_int]

/-- Helper: `temperature` never raises the thermocouple fault from a
closed transport and never succeeds there either; used by several claims. -/
theorem temperature_closed (s : SpiState) (h : s.isOpen = false) :
    temperature s = (s, Except.error DriverError.resourceClosed) := by
  simp [temperature, raw_value_closed s h]

/-- Helper: `is_connected` on a closed transport. -/
theorem is_connected_closed (s : SpiState) (h : s.isOpen = false) :
    is_connected s = (s, Except.error DriverError.resourceClosed) := by
  simp [is_connected, raw_value_closed s h]

/-- Helper: `is_connected` never produces a thermocouple fault, on any
state whatsoever. -/
theorem is_connected_no_fault (s : SpiState) (msg : String) :
    (is_connected s).2 ≠ Except.error (DriverError.thermocoupleError msg) := by
  cases h : s.isOpen
  · simp [is_connected_closed s h]
  · simp [is_connected, raw_value_open s h]

/-- Helper: `raw_value` never produces a thermocouple fault. -/
theorem raw_value_no_fault (s : SpiState) (msg : String) :
    (raw_value s).2 ≠ Except.error (DriverError.thermocoupleError msg) := by
  cases h : s.isOpen
  · simp [raw_value_closed s h]
  · simp [raw_value_open s h]

/-- C1: for every 16-bit raw value `v` (delivered by the transport as the
two bytes `b0`, `b1`, so `v = (b0 <<< 8) ||| b1`) with bit 2 clear,
`temperature` succeeds and returns exactly `(v >>> 3) * 0.25` degrees
Celsius — an exact rational, hence no rounding — and the value is passed
through unclamped. -/
theorem temperature_exact_no_fault (s : SpiState) (b0 b1 : Nat)
    (rest : List Nat) (_hb0 : b0 < 256) (_hb1 : b1 < 256)
    (hopen : s.isOpen = true) (hs : s.stream = b0 :: b1 :: rest)
    (hbit : ((b0 <<< 8) ||| b1) &&& 4 = 0) :
    (temperature s).2 =
      Except.ok (((((b0 <<< 8) ||| b1) >>> 3 : Nat) : ℚ) * 0.25) := by
  simp [temperature, raw_value_open s hopen, hs, words_to_int_pair, hbit]

/-- Witness for C1 at the concrete raw word 0x1218 = bytes [18, 24]. -/
theorem temperature_exact_no_fault_witness :
    (temperature ⟨0, true, [18, 24], 0⟩).2 =
      Except.ok (((((18 <<< 8) ||| 24) >>> 3 : Nat) : ℚ) * 0.25) :=
  temperature_exact_no_fault ⟨0, true, [18, 24], 0⟩ 18 24 []
    (by decide) (by decide) rfl rfl (by decide)

/-- C2: for every 16-bit raw value with bit 2 set, `temperature` raises the
thermocouple-fault error and produces no temperature value; with bit 2
clear it never raises that fault. -/
theorem temperature_fault_dichotomy (s : SpiState) (b0 b1 : Nat)
    (rest : List Nat) (_hb0 : b0 < 256) (_hb1 : b1 < 256)
    (hopen : s.isOpen = true) (hs : s.stream = b0 :: b1 :: rest) :
    (((b0 <<< 8) ||| b1) &&& 4 ≠ 0 →
      (temperature s).2 = Except.error
        (DriverError.thermocoupleError "Thermocouple is not connected")) ∧
    (((b0 <<< 8) ||| b1) &&& 4 = 0 →
      ∀ msg, (temperature s).2 ≠
        Except.error (DriverError.thermocoupleError msg)) := by
  constructor
  · intro hbit
    simp [temperature, raw_value_open s hopen, hs, words_to_int_pair, hbit]
  · intro hbit msg
    simp [temperature, raw_value_open s hopen, hs, words_to_int_pair, hbit]

/-- Witness for C2 at the raw word 0x0004 (bit 2 set). -/
theorem temperature_fault_dichotomy_witness :
    (temperature ⟨0, true, [0, 4], 0⟩).2 = Except.error
      (DriverError.thermocoupleError "Thermocouple is not connected") :=
  (temperature_fault_dichotomy ⟨0, true, [0, 4], 0⟩ 0 4 []
    (by decide) (by decide) rfl rfl).1 (by decide)

/-- C3: for every 16-bit raw value `v`, `is_connected` returns the boolean
`(v &&& 4) == 0`; that boolean is the logical negation of `temperature`'s
fault condition; and `is_connected` never raises the disconnection fault on
any state. -/
theorem is_connected_correct (s : SpiState) (b0 b1 : Nat)
    (rest : List Nat) (_hb0 : b0 < 256) (_hb1 : b1 < 256)
    (hopen : s.isOpen = true) (hs : s.stream = b0 :: b1 :: rest) :
    (is_connected s).2 = Except.ok ((((b0 <<< 8) ||| b1) &&& 4) == 0) ∧
    ((is_connected s).2 = Except.ok true ↔
      ∀ msg, (temperature s).2 ≠
        Except.error (DriverError.thermocoupleError msg)) ∧
    (∀ (t : SpiState) (msg : String),
      (is_connected t).2 ≠ Except.error (DriverError.thermocoupleError msg))
    := by
  refine ⟨?_, ?_, fun t msg => is_connected_no_fault t msg⟩
  · simp [is_connected, raw_value_open s hopen, hs, words_to_int_pair]
  · by_cases hbit : ((b0 <<< 8) ||| b1) &&& 4 = 0
    · simp [is_connected, temperature, raw_value_open s hopen, hs,
        words_to_int_pair, hbit]
    · apply iff_of_false
      · simp [is_connected, raw_value_open s hopen, hs, words_to_int_pair,
          hbit]
      · intro hall
        exact hall "Thermocouple is not connected"
          (by simp [temperature, raw_value_open s hopen, hs,
                words_to_int_pair, hbit])

/-- Witness for C3 at the raw word 0x0004 (bit 2 set, disconnected). -/
theorem is_connected_correct_witness :
    (is_connected ⟨0, true, [0, 4], 0⟩).2 =
      Except.ok ((((0 <<< 8) ||| 4) &&& 4) == 0) :=
  (is_connected_correct ⟨0, true, [0, 4], 0⟩ 0 4 []
    (by decide) (by decide) rfl rfl).1

/-- C4 (failing-input evaluation): at the raw word 0xFFFB (bytes
[0xFF, 0xFB]; all of bits 15..3 set, fault bit 2 clear) the code returns
`(0xFFFB >>> 3) * 0.25 = 8191 * 0.25 = 2047.75` — a value outside the
claimed range `[0.0, 1023.75]` and different from the claimed `1023.75`,
because bit 15 is shifted into the result instead of being masked off. -/
theorem temperature_bit15_unmasked :
    (temperature ⟨0, true, [0xFF, 0xFB], 0⟩).2 = Except.ok (2047.75 : ℚ) ∧
    ¬ ((2047.75 : ℚ) ≤ 1023.75) ∧ (2047.75 : ℚ) ≠ (4095 : ℚ) * 0.25 := by
  refine ⟨?_, by norm_num, by norm_num⟩
  have h : (temperature ⟨0, true, [0xFF, 0xFB], 0⟩).2 =
      Except.ok (((0xFFFB >>> 3 : Nat) : ℚ) * 0.25) := by rfl
  rw [h]
  have h2 : (0xFFFB >>> 3 : Nat) = 8191 := by decide
  rw [h2]; norm_num

/-- C5: `raw_value` consumes exactly the next 2 bytes of the transport
stream, performs exactly one bus transaction, and returns
`(b0 <<< 8) ||| b1` — the first byte in bits 15..8, the second in bits
7..0 — as a pure function of those two bytes (no smoothing, retry or
averaging). -/
theorem raw_value_byte_order (s : SpiState) (b0 b1 : Nat)
    (rest : List Nat) (_hb0 : b0 < 256) (_hb1 : b1 < 256)
    (hopen : s.isOpen = true) (hs : s.stream = b0 :: b1 :: rest) :
    raw_value s =
      ({ s with stream := rest, transactions := s.transactions + 1 },
       Except.ok ((b0 <<< 8) ||| b1)) := by
  rw [raw_value_open s hopen, hs]
  simp [words_to_int_pair]

/-- Witness for C5 at bytes [0xAB, 0xCD]. -/
theorem raw_value_byte_order_witness :
    raw_value ⟨0, true, [0xAB, 0xCD], 0⟩ =
      ({ clockMode := 0, isOpen := true, stream := [], transactions := 1 },
       Except.ok ((0xAB <<< 8) ||| 0xCD)) :=
  raw_value_byte_order ⟨0, true, [0xAB, 0xCD], 0⟩ 0xAB 0xCD []
    (by decide) (by decide) rfl rfl

/-- C6: on a released (closed) transport, every public operation —
`raw_value`, `temperature` and `is_connected` — returns the
resource-closed error and leaves the transport state untouched (no bus
transaction is performed, no value is returned). -/
theorem closed_rejects_all_operations (s : SpiState)
    (h : s.isOpen = false) :
    raw_value s = (s, Except.error DriverError.resourceClosed) ∧
    temperature s = (s, Except.error DriverError.resourceClosed) ∧
    is_connected s = (s, Except.error DriverError.resourceClosed) :=
  ⟨raw_value_closed s h, temperature_closed s h, is_connected_closed s h⟩

/-- Witness for C6 on a concrete closed state. -/
theorem closed_rejects_all_operations_witness :
    raw_value ⟨0, false, [1, 2], 5⟩ =
      (⟨0, false, [1, 2], 5⟩, Except.error DriverError.resourceClosed) ∧
    temperature ⟨0, false, [1, 2], 5⟩ =
      (⟨0, false, [1, 2], 5⟩, Except.error DriverError.resourceClosed) ∧
    is_connected ⟨0, false, [1, 2], 5⟩ =
      (⟨0, false, [1, 2], 5⟩, Except.error DriverError.resourceClosed) :=
  closed_rejects_all_operations ⟨0, false, [1, 2], 5⟩ rfl

/-- C7: each `temperature` or `is_connected` call performs exactly one new
bus transaction, consuming exactly the next two stream bytes; nothing is
cached, so a second call performs its own transaction and its result is
computed from the two fresh bytes `b2`, `b3`. -/
theorem one_transaction_per_query (s : SpiState) (b0 b1 b2 b3 : Nat)
    (rest : List Nat) (hopen : s.isOpen = true)
    (hs : s.stream = b0 :: b1 :: b2 :: b3 :: rest) :
    (temperature s).1 =
      { s with stream := b2 :: b3 :: rest,
               transactions := s.transactions + 1 } ∧
    (is_connected s).1 =
      { s with stream := b2 :: b3 :: rest,
               transactions := s.transactions + 1 } ∧
    (is_connected (is_connected s).1).1 =
      { s with stream := rest, transactions := s.transactions + 2 } ∧
    (is_connected (is_connected s).1).2 =
      Except.ok ((((b2 <<< 8) ||| b3) &&& 4) == 0) := by
  have h1 : (is_connected s).1 =
      { s with stream := b2 :: b3 :: rest,
               transactions := s.transactions + 1 } := by
    simp [is_connected, raw_value_open s hopen, hs]
  have h2 : (temperature s).1 =
      { s with stream := b2 :: b3 :: rest,
               transactions := s.transactions + 1 } := by
    rw [temperature, raw_value_open s hopen, hs]
    by_cases hbit : words_to_int [b0, b1] &&& 4 ≠ 0 <;> simp [hbit]
  have hopen2 :
      ({ s with stream := b2 :: b3 :: rest,
                transactions := s.transactions + 1 } : SpiState).isOpen
        = true :=
    hopen
  have h3 :
      is_connected
        { s with stream := b2 :: b3 :: rest,
                 transactions := s.transactions + 1 } =
      ({ s with stream := rest, transactions := s.transactions + 1 + 1 },
       Except.ok (((b2 <<< 8 ||| b3) &&& 4) == 0)) := by
    simp [is_connected, raw_value_open _ hopen2, words_to_int_pair]
  refine ⟨h2, h1, ?_, ?_⟩ <;> rw [h1, h3]

/-- Witness for C7 on a concrete four-byte stream. -/
theorem one_transaction_per_query_witness :
    (temperature ⟨0, true, [18, 24, 0, 4], 0⟩).1 =
      { clockMode := 0, isOpen := true, stream := [0, 4],
        transactions := 1 } ∧
    (is_connected ⟨0, true, [18, 24, 0, 4], 0⟩).1 =
      { clockMode := 0, isOpen := true, stream := [0, 4],
        transactions := 1 } ∧
    (is_connected (is_connected ⟨0, true, [18, 24, 0, 4], 0⟩).1).1 =
      { clockMode := 0, isOpen := true, stream := [],
        transactions := 2 } ∧
    (is_connected (is_connected ⟨0, true, [18, 24, 0, 4], 0⟩).1).2 =
      Except.ok ((((0 <<< 8) ||| 4) &&& 4) == 0) :=
  one_transaction_per_query ⟨0, true, [18, 24, 0, 4], 0⟩ 18 24 0 4 []
    rfl rfl

/-- C8: construction always sets the transport's clock mode to 0,
whatever mode the user-supplied transport arguments would have selected
(the assignment runs after the base constructor, so nothing overrides it),
and it leaves the rest of the freshly constructed transport state alone. -/
theorem init_clock_mode_zero (argsMode : Nat) (stream : List Nat) :
    (Max6675_init argsMode stream).clockMode = 0 ∧
    (Max6675_init argsMode stream).isOpen = true ∧
    (Max6675_init argsMode stream).stream = stream ∧
    (Max6675_init argsMode stream).transactions = 0 :=
  ⟨rfl, rfl, rfl, rfl⟩

/-- C9: the thermocouple fault is a distinguished error kind — it differs
from the resource-closed kind, it is never produced by `raw_value` or
`is_connected`, and whenever `temperature` produces it the transport was
open and the freshly read word had bit 2 set. -/
theorem thermocouple_fault_distinguished (s : SpiState) (msg : String) :
    DriverError.thermocoupleError msg ≠ DriverError.resourceClosed ∧
    (raw_value s).2 ≠ Except.error (DriverError.thermocoupleError msg) ∧
    (is_connected s).2 ≠ Except.error (DriverError.thermocoupleError msg) ∧
    ((temperature s).2 = Except.error (DriverError.thermocoupleError msg) →
      s.isOpen = true ∧ words_to_int (s.stream.take 2) &&& 4 ≠ 0) := by
  refine ⟨by simp, raw_value_no_fault s msg, is_connected_no_fault s msg,
    ?_⟩
  intro h
  cases hopen : s.isOpen
  · rw [temperature_closed s hopen] at h
    simp at h
  · refine ⟨rfl, ?_⟩
    intro hbit
    rw [temperature] at h
    rw [raw_value_open s hopen] at h
    simp [hbit] at h

/-- Witness for C9 at the raw word 0x0004 (bit 2 set). -/
theorem thermocouple_fault_distinguished_witness :
    (⟨0, true, [0, 4], 0⟩ : SpiState).isOpen = true ∧
    words_to_int (([0, 4] : List Nat).take 2) &&& 4 ≠ 0 :=
  (thermocouple_fault_distinguished ⟨0, true, [0, 4], 0⟩
    "Thermocouple is not connected").2.2.2 (by rfl)

/-- C10: whenever `temperature` raises the thermocouple fault, the 2-byte
bus transaction has already happened: the returned transport state has
consumed two stream bytes and counts exactly one more transaction than
before the call. -/
theorem fault_after_full_transaction (s : SpiState) (msg : String)
    (h : (temperature s).2 =
      Except.error (DriverError.thermocoupleError msg)) :
    (temperature s).1 =
      { s with stream := s.stream.drop 2,
               transactions := s.transactions + 1 } := by
  cases hopen : s.isOpen
  · rw [temperature_closed s hopen] at h
    simp at h
  · rw [temperature, raw_value_open s hopen]
    by_cases hbit : words_to_int (s.stream.take 2) &&& 4 ≠ 0 <;>
      simp [hbit, hopen]

/-- Witness for C10 at the raw word 0x0004 (bit 2 set). -/
theorem fault_after_full_transaction_witness :
    (temperature ⟨0, true, [0, 4], 0⟩).1 =
      { clockMode := 0, isOpen := true, stream := ([] : List Nat),
        transactions := 1 } :=
  fault_after_full_transaction ⟨0, true, [0, 4], 0⟩
    "Thermocouple is not connected" (by rfl)
